import Mathlib

/-!
# Formal model of `scripts/compare_benchmarks.py`

A shallow embedding of the benchmark-regression evaluator: the data model
(metric records, baseline tables, analysis results), the tolerance comparator
`compare_metric`, the per-run analysis `analyze_test_results`, the batch
summary and markdown report `generate_markdown_report`, and the CI gate
(the exit-code logic of `main`).

Modelling conventions:
* Python floats are modelled as `ℚ` (all comparisons in the script are exact
  order comparisons, faithfully represented by exact rational order).
* Python dicts with a fixed key set are structures; dicts with optional keys
  use `Option` fields (a `none` field is an absent key, and indexing an
  absent key is a `KeyError`, modelled with `Except`).
* Python dicts preserve insertion order, so an ordered dict is an
  association list; `dict[k]` is `List.lookup`, iteration is list order.
* `str.lower` is modelled for ASCII text (`lowerChar`/`lowerStr`), and the
  Python substring test `a in b` is `isSubstring a.data b.data`.
* Strings printed to stdout (the platform-fallback warning) are returned
  alongside the result, so that the side channel is observable.
* Number formatting (`:.0f`, `:.2f`) is abstracted to `toString`; no theorem
  below depends on the text of a message, only on list structure.
-/

namespace CompareBenchmarks

/-- ASCII lowercase of one character (model of Python `str.lower` per char). -/
def lowerChar (c : Char) : Char :=
  if 65 ≤ c.toNat ∧ c.toNat ≤ 90 then Char.ofNat (c.toNat + 32) else c

/-- ASCII lowercase of a character list (model of Python `str.lower`). -/
def lowerStr (s : List Char) : List Char := s.map lowerChar

/-- Python `needle in haystack` substring test on character lists. -/
def isSubstring (needle haystack : List Char) : Bool :=
  (List.range (haystack.length + 1)).any fun i => needle.isPrefixOf (haystack.drop i)

/-- `results['throughput']` sub-dict of a result file. -/
structure Throughput where
  messages_per_second : ℚ
  deriving DecidableEq

/-- `results['memory']` sub-dict of a result file. -/
structure MemoryUse where
  peak_mb : ℚ
  deriving DecidableEq

/-- `results['latency']` sub-dict of a result file. -/
structure Latency where
  p99_us : ℚ
  violation_percentage : ℚ
  deriving DecidableEq

/-- `results['errors']` sub-dict of a result file. -/
structure Errors where
  error_rate : ℚ
  deriving DecidableEq

/-- One parsed benchmark-results file (a metric record), with all the fields
`analyze_test_results` reads. -/
structure Results where
  test_name : String
  throughput : Throughput
  memory : MemoryUse
  latency : Latency
  errors : Errors
  deriving DecidableEq

/-- One baseline entry (the value of `baselines[os][test_key]`): optional
bounds plus an optional tolerance, `none` meaning the key is absent. -/
structure Baseline where
  min_throughput_msg_sec : Option ℚ
  max_memory_mb : Option ℚ
  max_latency_p99_us : Option ℚ
  max_violations_percent : Option ℚ
  tolerance_percent : Option ℚ
  deriving DecidableEq

/-- The parsed baselines file: `baselines` maps an OS name to an ordered
table of `(test_key, baseline entry)` rows; order is dict insertion order. -/
structure BaselinesFile where
  baselines : List (String × List (String × Baseline))
  deriving DecidableEq

/-- The `metrics` snapshot sub-dict of a full analysis result. -/
structure Metrics where
  throughput : ℚ
  memory_mb : ℚ
  p99_latency_us : ℚ
  error_rate : ℚ
  deriving DecidableEq

/-- The dict returned by `analyze_test_results`: the matched branch fills
`test_name`, `os`, `failures`, `warnings`, `metrics`; the no-baseline branch
fills only `message` and `details`. A `none` field is an absent key. -/
structure AnalysisDict where
  status : String
  message : Option String
  details : Option Results
  test_name : Option String
  os : Option String
  failures : Option (List String)
  warnings : Option (List String)
  metrics : Option Metrics
  deriving DecidableEq

/-- `compare_metric` (lines 18-30): compare actual against baseline with a
percentage tolerance; any comparison string other than `"min"` takes the
`max` branch, exactly as the Python `else` does. Pure and total. -/
def compare_metric (actual baseline tolerance_percent : ℚ) (comparison : String) : Bool :=
  let tolerance := baseline * (tolerance_percent / 100)
  if comparison = "min" then
    decide (actual ≥ baseline - tolerance)
  else
    decide (actual ≤ baseline + tolerance)

/-- The baseline-key resolution loop of `analyze_test_results` (lines 46-50):
first key in table order that is a substring of the lower-cased test name. -/
def find_baseline_key (os_baselines : List (String × Baseline)) (test_name : String) :
    Option String :=
  match os_baselines with
  | [] => none
  | (key, _) :: rest =>
    if isSubstring key.data (lowerStr test_name.data) then some key
    else find_baseline_key rest test_name

/-- The no-baseline result dict (lines 52-57): status `warning`, a message
and the raw results; no `test_name`, `os`, `failures`, `warnings`, `metrics`
keys. -/
def unmatched_result (test_name : String) (results : Results) : AnalysisDict :=
  { status := "warning"
    message := some ("No baseline found for test " ++ test_name)
    details := some results
    test_name := none
    os := none
    failures := none
    warnings := none
    metrics := none }

/-- Throughput check (lines 65-71): with a `min_throughput_msg_sec` bound
present, a breach appends one failure message; otherwise nothing. -/
def throughput_check (results : Results) (baseline : Baseline) (tolerance : ℚ) :
    List String :=
  match baseline.min_throughput_msg_sec with
  | none => []
  | some min_throughput =>
    let actual_throughput := results.throughput.messages_per_second
    if compare_metric actual_throughput min_throughput tolerance "min" then []
    else ["Throughput " ++ toString actual_throughput ++ " < " ++
          toString min_throughput ++ " msg/sec"]

/-- Memory check (lines 73-79): breach of `max_memory_mb` appends a failure. -/
def memory_check (results : Results) (baseline : Baseline) (tolerance : ℚ) :
    List String :=
  match baseline.max_memory_mb with
  | none => []
  | some max_memory =>
    let actual_memory := results.memory.peak_mb
    if compare_metric actual_memory max_memory tolerance "max" then []
    else ["Memory " ++ toString actual_memory ++ " > " ++
          toString max_memory ++ " MB"]

/-- Latency check (lines 81-87): breach of `max_latency_p99_us` appends a
failure. -/
def latency_check (results : Results) (baseline : Baseline) (tolerance : ℚ) :
    List String :=
  match baseline.max_latency_p99_us with
  | none => []
  | some max_p99 =>
    let actual_p99 := results.latency.p99_us
    if compare_metric actual_p99 max_p99 tolerance "max" then []
    else ["P99 latency " ++ toString actual_p99 ++ " > " ++
          toString max_p99 ++ " us"]

/-- Violations check (lines 89-95): breach of `max_violations_percent`
appends a warning (never a failure). -/
def violations_check (results : Results) (baseline : Baseline) (tolerance : ℚ) :
    List String :=
  match baseline.max_violations_percent with
  | none => []
  | some max_violations =>
    let actual_violations := results.latency.violation_percentage
    if compare_metric actual_violations max_violations tolerance "max" then []
    else ["Latency violations " ++ toString actual_violations ++ "% > " ++
          toString max_violations ++ "%"]

/-- The matched branch of `analyze_test_results` (lines 59-122): run the four
checks in source order, derive the status by the failed/warning/passed
precedence, and fill the full result dict with the metrics snapshot. -/
def evaluate_against_baseline (results : Results) (baseline : Baseline)
    (test_name os_name : String) : AnalysisDict :=
  let tolerance := baseline.tolerance_percent.getD 10
  let failures := throughput_check results baseline tolerance ++
    memory_check results baseline tolerance ++
    latency_check results baseline tolerance
  let warnings := violations_check results baseline tolerance
  let status := if failures ≠ [] then "failed"
    else if warnings ≠ [] then "warning" else "passed"
  { status := status
    message := none
    details := none
    test_name := some test_name
    os := some os_name
    failures := some failures
    warnings := some warnings
    metrics := some { throughput := results.throughput.messages_per_second
                      memory_mb := results.memory.peak_mb
                      p99_latency_us := results.latency.p99_us
                      error_rate := results.errors.error_rate } }

/-- The warning printed on platform fallback (line 39). -/
def fallback_warning (os_name : String) : String :=
  "Warning: No baselines for OS " ++ os_name ++ ", using linux defaults"

/-- `analyze_test_results` (lines 32-122) on already-parsed inputs.  Returns
the list of printed warning lines together with the result dict; `none`
models an uncaught `KeyError` (`baselines['baselines'][os]` on a missing
key). The platform fallback (lines 38-40) rewrites an unknown OS to
`"linux"` after printing a warning. -/
def analyze_test_results (results : Results) (baselines : BaselinesFile)
    (os_name : String) : Option (List String × AnalysisDict) :=
  let printed_os :=
    match baselines.baselines.lookup os_name with
    | none => ([fallback_warning os_name], "linux")
    | some _ => (([] : List String), os_name)
  match baselines.baselines.lookup printed_os.2 with
  | none => none
  | some os_baselines =>
    match find_baseline_key os_baselines results.test_name with
    | none => some (printed_os.1, unmatched_result results.test_name results)
    | some baseline_key =>
      match os_baselines.lookup baseline_key with
      | none => none
      | some baseline =>
        some (printed_os.1,
          evaluate_against_baseline results baseline results.test_name printed_os.2)

/-- The batch summary computed at the top of `generate_markdown_report`
(lines 124-138): per-status counts and the overall banner choice, recorded
here as `overall ∈ {failed, warning, passed}` by the same precedence. -/
structure BatchSummary where
  passed : Nat
  warnings : Nat
  failed : Nat
  overall : String
  deriving DecidableEq

/-- Counts and overall outcome, exactly as lines 129-138 compute them. -/
def batch_summary (analyses : List AnalysisDict) : BatchSummary :=
  let passed := analyses.countP fun a => a.status == "passed"
  let failed := analyses.countP fun a => a.status == "failed"
  let warnings := analyses.countP fun a => a.status == "warning"
  { passed := passed
    warnings := warnings
    failed := failed
    overall := if 0 < failed then "failed"
      else if 0 < warnings then "warning" else "passed" }

/-- The status banner line (lines 131-136). -/
def summary_banner (s : BatchSummary) : String :=
  if s.overall = "failed" then "## ❌ Status: FAILED\n"
  else if s.overall = "warning" then "## ⚠️ Status: PASSED WITH WARNINGS\n"
  else "## ✅ Status: PASSED\n"

/-- The per-status icon (line 146). -/
def status_icon (status : String) : String :=
  if status = "passed" then "✅" else if status = "warning" then "⚠️" else "❌"

/-- One detailed-results section (lines 145-168).  The Python indexes
`analysis['test_name']`, `analysis['os']` and `analysis['metrics']`
unconditionally, in that evaluation order, so an absent key is a
`KeyError`; `analysis.get('failures')` / `.get('warnings')` never raise. -/
def render_analysis (a : AnalysisDict) : Except String String :=
  match a.test_name with
  | none => Except.error "KeyError: test_name"
  | some tn =>
    match a.os with
    | none => Except.error "KeyError: os"
    | some osn =>
      match a.metrics with
      | none => Except.error "KeyError: metrics"
      | some m =>
        let fs := a.failures.getD []
        let ws := a.warnings.getD []
        Except.ok ("### " ++ status_icon a.status ++ " " ++ tn ++ " (" ++ osn ++ ")\n\n"
          ++ "| Metric | Value |\n" ++ "|--------|-------|\n"
          ++ "| Throughput | " ++ toString m.throughput ++ " msg/sec |\n"
          ++ "| Memory | " ++ toString m.memory_mb ++ " MB |\n"
          ++ "| P99 Latency | " ++ toString m.p99_latency_us ++ " us |\n"
          ++ "| Error Rate | " ++ toString m.error_rate ++ "% |\n\n"
          ++ (if fs ≠ [] then
               "**Failures:**\n" ++ String.join (fs.map fun f => "- " ++ f ++ "\n") ++ "\n"
             else "")
          ++ (if ws ≠ [] then
               "**Warnings:**\n" ++ String.join (ws.map fun w => "- " ++ w ++ "\n") ++ "\n"
             else ""))

/-- The detailed-results loop of `generate_markdown_report`: the first
`KeyError` aborts the whole report. -/
def render_all : List AnalysisDict → Except String String
  | [] => Except.ok ""
  | a :: rest =>
    match render_analysis a with
    | Except.error e => Except.error e
    | Except.ok s =>
      match render_all rest with
      | Except.error e => Except.error e
      | Except.ok t => Except.ok (s ++ t)

/-- `generate_markdown_report` (lines 124-170): summary header followed by
the per-analysis sections; a `KeyError` in any section means no report is
produced at all. -/
def generate_markdown_report (analyses : List AnalysisDict) : Except String String :=
  let s := batch_summary analyses
  let header := "# 📊 IPC Performance Test Results\n" ++ summary_banner s
    ++ "- ✅ Passed: " ++ toString s.passed ++ "\n"
    ++ "- ⚠️ Warnings: " ++ toString s.warnings ++ "\n"
    ++ "- ❌ Failed: " ++ toString s.failed ++ "\n\n"
    ++ "## Detailed Results\n\n"
  match render_all analyses with
  | Except.error e => Except.error e
  | Except.ok body => Except.ok (header ++ body)

/-- The exit-code logic at the end of `main` (lines 226-232): with
`--fail-on-regression` set, exit 1 when any analysis failed; exit 0
otherwise. -/
def gate_exit_code (fail_on_regression : Bool) (analyses : List AnalysisDict) : Nat :=
  if fail_on_regression then
    if 0 < analyses.countP (fun a => a.status == "failed") then 1 else 0
  else 0

/-- Modelled from the spec: the case-insensitive key matching §4.2 describes
("the first entry whose `test_key` (case-insensitive) is a substring of the
lower-cased `testName`") — both sides lower-cased.  Stated only to compare
with the code's `find_baseline_key`, which lower-cases the test name alone. -/
def keyMatchesCI (key name : String) : Bool :=
  isSubstring (lowerStr key.data) (lowerStr name.data)

/-! ## Fixtures -/

/-- Scenario A baseline: `{min_throughput_msg_sec: 100000, tolerance_percent: 10}`. -/
def scenarioA_baseline : Baseline := ⟨some 100000, none, none, none, some 10⟩

/-- Scenario A record: measured throughput 91000. -/
def scenarioA_results : Results :=
  ⟨"ipc_throughput_benchmark", ⟨91000⟩, ⟨1⟩, ⟨1, 0⟩, ⟨0⟩⟩

/-! ## Theorems -/

/-- C3: the tolerance comparator computes `tolerance = bound * tolerancePercent
/ 100` and accepts in direction `min` iff `actual ≥ bound - tolerance`, in
direction `max` iff `actual ≤ bound + tolerance`.  `compare_metric` is a plain
total function on `ℚ` — purity and absence of error conditions are inherent in
its type. -/
theorem C3_tolerance_comparator (actual bound tolerancePercent : ℚ) :
    (compare_metric actual bound tolerancePercent "min" = true ↔
      actual ≥ bound - bound * tolerancePercent / 100) ∧
    (compare_metric actual bound tolerancePercent "max" = true ↔
      actual ≤ bound + bound * tolerancePercent / 100) := by
  constructor
  · simp +decide [compare_metric, mul_div_assoc]
  · simp +decide [compare_metric, mul_div_assoc]

/-- C4 counterexample: Scenario A as claimed is false on the code — with
baseline 100000 and tolerance 10%, a measured throughput of 91000 does NOT
fail the throughput check: `91000 < 90000` is false, `compare_metric`
accepts, and the verdict is `passed`. -/
theorem C4_counterexample :
    ¬ ((91000 : ℚ) < 90000) ∧
    compare_metric 91000 100000 10 "min" = true ∧
    (evaluate_against_baseline scenarioA_results scenarioA_baseline
        "ipc_throughput_benchmark" "linux").status = "passed" := by
  refine ⟨by norm_num, by norm_num [compare_metric], ?_⟩
  norm_num [evaluate_against_baseline, throughput_check, memory_check,
    latency_check, violations_check, compare_metric,
    scenarioA_results, scenarioA_baseline]

/-- C4 amended: with baseline `min_throughput_msg_sec = 100000` and
`tolerance_percent = 10`, a measured throughput of 91000 passes the
throughput check (`91000 ≥ 90000`): the comparator accepts and the verdict
carries no failures. -/
theorem C4_scenarioA_amended :
    compare_metric 91000 100000 10 "min" = true ∧
    (91000 : ℚ) ≥ 100000 - 100000 * 10 / 100 ∧
    (evaluate_against_baseline scenarioA_results scenarioA_baseline
        "ipc_throughput_benchmark" "linux").failures = some [] := by
  refine ⟨by norm_num [compare_metric], by norm_num, ?_⟩
  norm_num [evaluate_against_baseline, throughput_check, memory_check,
    latency_check, violations_check, compare_metric,
    scenarioA_results, scenarioA_baseline]

theorem throughput_check_ne_nil (r : Results) (b : Baseline) (t : ℚ) :
    throughput_check r b t ≠ [] ↔
      ∃ m, b.min_throughput_msg_sec = some m ∧
        compare_metric r.throughput.messages_per_second m t "min" = false := by
  unfold throughput_check
  cases hb : b.min_throughput_msg_sec with
  | none => simp
  | some m =>
    cases hc : compare_metric r.throughput.messages_per_second m t "min" <;>
      simp [hc]

theorem memory_check_ne_nil (r : Results) (b : Baseline) (t : ℚ) :
    memory_check r b t ≠ [] ↔
      ∃ m, b.max_memory_mb = some m ∧
        compare_metric r.memory.peak_mb m t "max" = false := by
  unfold memory_check
  cases hb : b.max_memory_mb with
  | none => simp
  | some m =>
    cases hc : compare_metric r.memory.peak_mb m t "max" <;> simp [hc]

theorem latency_check_ne_nil (r : Results) (b : Baseline) (t : ℚ) :
    latency_check r b t ≠ [] ↔
      ∃ m, b.max_latency_p99_us = some m ∧
        compare_metric r.latency.p99_us m t "max" = false := by
  unfold latency_check
  cases hb : b.max_latency_p99_us with
  | none => simp
  | some m =>
    cases hc : compare_metric r.latency.p99_us m t "max" <;> simp [hc]

theorem violations_check_ne_nil (r : Results) (b : Baseline) (t : ℚ) :
    violations_check r b t ≠ [] ↔
      ∃ m, b.max_violations_percent = some m ∧
        compare_metric r.latency.violation_percentage m t "max" = false := by
  unfold violations_check
  cases hb : b.max_violations_percent with
  | none => simp
  | some m =>
    cases hc : compare_metric r.latency.violation_percentage m t "max" <;>
      simp [hc]

theorem status_chain (fs ws : List String) :
    ((if fs ≠ [] then "failed" else if ws ≠ [] then "warning" else "passed") =
        "failed" ↔ fs ≠ []) ∧
    ((if fs ≠ [] then "failed" else if ws ≠ [] then "warning" else "passed") =
        "warning" ↔ fs = [] ∧ ws ≠ []) ∧
    ((if fs ≠ [] then "failed" else if ws ≠ [] then "warning" else "passed") =
        "passed" ↔ fs = [] ∧ ws = []) := by
  by_cases hf : fs = [] <;> by_cases hw : ws = [] <;> simp +decide [hf, hw]

/-- C2: against a matched baseline entry, the verdict's failures are exactly
the breaches of the min-throughput, max-memory and max-latency bounds, its
warnings are exactly the breaches of the max-violation-percent bound (never
failures), and the status precedence is `failed` if failures is non-empty,
else `warning` if warnings is non-empty, else `passed` — so any verdict with
a failure is `failed` regardless of warnings. -/
theorem C2_verdict_evaluation (r : Results) (b : Baseline) (tn osn : String) :
    ∃ fs ws,
      (evaluate_against_baseline r b tn osn).failures = some fs ∧
      (evaluate_against_baseline r b tn osn).warnings = some ws ∧
      (fs ≠ [] ↔
        ((∃ m, b.min_throughput_msg_sec = some m ∧
            compare_metric r.throughput.messages_per_second m
              (b.tolerance_percent.getD 10) "min" = false) ∨
         (∃ m, b.max_memory_mb = some m ∧
            compare_metric r.memory.peak_mb m
              (b.tolerance_percent.getD 10) "max" = false) ∨
         (∃ m, b.max_latency_p99_us = some m ∧
            compare_metric r.latency.p99_us m
              (b.tolerance_percent.getD 10) "max" = false))) ∧
      (ws ≠ [] ↔
        (∃ m, b.max_violations_percent = some m ∧
          compare_metric r.latency.violation_percentage m
            (b.tolerance_percent.getD 10) "max" = false)) ∧
      ((evaluate_against_baseline r b tn osn).status = "failed" ↔ fs ≠ []) ∧
      ((evaluate_against_baseline r b tn osn).status = "warning" ↔
        fs = [] ∧ ws ≠ []) ∧
      ((evaluate_against_baseline r b tn osn).status = "passed" ↔
        fs = [] ∧ ws = []) := by
  refine ⟨throughput_check r b (b.tolerance_percent.getD 10) ++
      memory_check r b (b.tolerance_percent.getD 10) ++
      latency_check r b (b.tolerance_percent.getD 10),
    violations_check r b (b.tolerance_percent.getD 10),
    rfl, rfl, ?_, violations_check_ne_nil r b _, ?_, ?_, ?_⟩
  · rw [← throughput_check_ne_nil r b (b.tolerance_percent.getD 10),
      ← memory_check_ne_nil r b (b.tolerance_percent.getD 10),
      ← latency_check_ne_nil r b (b.tolerance_percent.getD 10),
      ne_eq, List.append_eq_nil, List.append_eq_nil]
    tauto
  · simp only [evaluate_against_baseline]
    exact (status_chain _ _).1
  · simp only [evaluate_against_baseline]
    exact (status_chain _ _).2.1
  · simp only [evaluate_against_baseline]
    exact (status_chain _ _).2.2

/-- A baseline entry with every optional key absent. -/
def bEmpty : Baseline := ⟨none, none, none, none, none⟩

/-- C5 counterexample: the matching is not case-insensitive.  The key `"IPC"`
matches the test name `"ipc_throughput_test"` case-insensitively (as the
claim prescribes), yet the resolver finds no entry, because the code checks
the verbatim key against the lower-cased test name only. -/
theorem C5_counterexample :
    keyMatchesCI "IPC" "ipc_throughput_test" = true ∧
    find_baseline_key [("IPC", bEmpty)] "ipc_throughput_test" = none := by
  constructor <;> decide

/-- C5 amended: the resolver returns the first entry, in table order, whose
verbatim `test_key` is a substring of the lower-cased test name (the key
itself is not case-normalized); when several keys match, list order decides. -/
theorem C5_resolver_first_match (obs : List (String × Baseline)) (tn k : String) :
    find_baseline_key obs tn = some k ↔
      ∃ pre b post, obs = pre ++ (k, b) :: post ∧
        isSubstring k.data (lowerStr tn.data) = true ∧
        ∀ kv ∈ pre, isSubstring kv.1.data (lowerStr tn.data) = false := by
  induction obs with
  | nil => simp [find_baseline_key]
  | cons hd rest ih =>
    obtain ⟨key, bb⟩ := hd
    rw [find_baseline_key]
    by_cases hm : isSubstring key.data (lowerStr tn.data) = true
    · rw [if_pos hm]
      constructor
      · intro h
        obtain rfl : key = k := by injection h
        exact ⟨[], bb, rest, rfl, hm, by simp⟩
      · rintro ⟨pre, b, post, heq, hsub, hpre⟩
        cases pre with
        | nil =>
          simp only [List.nil_append, List.cons.injEq, Prod.mk.injEq] at heq
          rw [heq.1.1]
        | cons p pre2 =>
          simp only [List.cons_append, List.cons.injEq] at heq
          have hp := hpre p (by simp)
          rw [← heq.1] at hp
          simp only at hp
          rw [hm] at hp
          exact absurd hp (by simp)
    · rw [if_neg hm]
      rw [ih]
      have hm' : isSubstring key.data (lowerStr tn.data) = false :=
        Bool.not_eq_true _ ▸ (by simpa using hm)
      constructor
      · rintro ⟨pre, b, post, heq, hsub, hpre⟩
        refine ⟨(key, bb) :: pre, b, post, by rw [heq, List.cons_append], hsub, ?_⟩
        intro kv hkv
        rcases List.mem_cons.mp hkv with h | h
        · rw [h]; exact hm'
        · exact hpre kv h
      · rintro ⟨pre, b, post, heq, hsub, hpre⟩
        cases pre with
        | nil =>
          simp only [List.nil_append, List.cons.injEq, Prod.mk.injEq] at heq
          rw [heq.1.1] at hm
          exact absurd hsub hm
        | cons p pre2 =>
          simp only [List.cons_append, List.cons.injEq] at heq
          exact ⟨pre2, b, post, heq.2, hsub, fun kv hkv => hpre kv (List.mem_cons_of_mem _ hkv)⟩

/-- C6: the batch summary — the per-status counts and the derived overall
outcome — is invariant under any permutation of the input verdict list. -/
theorem C6_aggregation_perm_invariant (l₁ l₂ : List AnalysisDict) (h : l₁.Perm l₂) :
    batch_summary l₁ = batch_summary l₂ := by
  unfold batch_summary
  simp only [h.countP_eq]

/-- A minimal verdict dict with status `passed`. -/
def verdict_passed : AnalysisDict := ⟨"passed", none, none, none, none, none, none, none⟩

/-- A minimal verdict dict with status `failed`. -/
def verdict_failed : AnalysisDict := ⟨"failed", none, none, none, none, none, none, none⟩

theorem C6_perm_witness :
    batch_summary [verdict_passed, verdict_failed] =
      batch_summary [verdict_failed, verdict_passed] :=
  C6_aggregation_perm_invariant _ _ (List.Perm.swap verdict_failed verdict_passed [])

/-- C7: the gate exits 1 iff `--fail-on-regression` is set and the overall
outcome of the batch is `failed`; in every other case (enforcement off, or
only warnings / unmatched-style verdicts) it exits 0. -/
theorem C7_gate_exit_code (fail_on_regression : Bool) (analyses : List AnalysisDict) :
    (gate_exit_code fail_on_regression analyses = 1 ↔
      fail_on_regression = true ∧ (batch_summary analyses).overall = "failed") ∧
    (gate_exit_code fail_on_regression analyses = 0 ↔
      ¬ (fail_on_regression = true ∧ (batch_summary analyses).overall = "failed")) := by
  have hov : (batch_summary analyses).overall = "failed" ↔
      0 < analyses.countP (fun a => a.status == "failed") := by
    unfold batch_summary
    by_cases hf : 0 < analyses.countP (fun a => a.status == "failed") <;>
      by_cases hw : 0 < analyses.countP (fun a => a.status == "warning") <;>
        simp +decide [hf, hw]
  unfold gate_exit_code
  cases fail_on_regression <;>
    by_cases hf : 0 < analyses.countP (fun a => a.status == "failed") <;>
      simp +decide [hf, hov]

theorem lookup_of_find_baseline_key {obs : List (String × Baseline)} {tn k : String}
    (h : find_baseline_key obs tn = some k) : ∃ b, obs.lookup k = some b := by
  induction obs with
  | nil => simp [find_baseline_key] at h
  | cons hd rest ih =>
    obtain ⟨key, bb⟩ := hd
    rw [find_baseline_key] at h
    by_cases hm : isSubstring key.data (lowerStr tn.data) = true
    · rw [if_pos hm] at h
      obtain rfl : key = k := by injection h
      exact ⟨bb, by simp⟩
    · rw [if_neg hm] at h
      obtain ⟨b, hb⟩ := ih h
      cases hbeq : (k == key) with
      | true => exact ⟨bb, by simp [List.lookup_cons, hbeq]⟩
      | false => exact ⟨b, by simp [List.lookup_cons, hbeq, hb]⟩

theorem mem_keys_of_lookup_isSome {β : Type} {l : List (String × β)} {k : String}
    (h : (l.lookup k).isSome = true) : k ∈ l.map Prod.fst := by
  rw [List.lookup_isSome_iff] at h
  obtain ⟨p, hp, he⟩ := h
  rw [beq_iff_eq] at he
  rw [he]
  exact List.mem_map_of_mem _ hp

/-- A table whose only platform is `linux`, with a single key `"zzz"` that
matches no fixture test name. -/
def no_match_table : BaselinesFile := ⟨[("linux", [("zzz", bEmpty)])]⟩

/-- A fixture record named `"ipc_test"`. -/
def rA : Results := ⟨"ipc_test", ⟨1⟩, ⟨1⟩, ⟨1, 0⟩, ⟨0⟩⟩

/-- C1 counterexample: when no baseline key matches, the result's status is
`"warning"`, not the distinct `"unmatched"` status the claim describes — the
code has no `unmatched` status at all. -/
theorem C1_counterexample :
    ((analyze_test_results rA no_match_table "linux").map fun p => p.2.status) =
      some "warning" ∧
    ¬ ((analyze_test_results rA no_match_table "linux").map fun p => p.2.status) =
      some "unmatched" := by
  constructor <;> decide

/-- C1 amended: when no baseline entry's key matches the record's test name,
the evaluator returns the no-baseline dict with status `"warning"` (there is
no `unmatched` status), carrying no `failures`/`warnings` keys; the status is
distinct from `passed`, and prepending this result to any batch never changes
the gate's exit code. -/
theorem C1_unmatched_amended (r : Results) (table : BaselinesFile) (os_name : String)
    (obs : List (String × Baseline))
    (hobs : table.baselines.lookup os_name = some obs)
    (hmatch : find_baseline_key obs r.test_name = none) :
    analyze_test_results r table os_name =
      some ([], unmatched_result r.test_name r) ∧
    (unmatched_result r.test_name r).status = "warning" ∧
    (unmatched_result r.test_name r).failures = none ∧
    (unmatched_result r.test_name r).warnings = none ∧
    (unmatched_result r.test_name r).status ≠ "passed" ∧
    ∀ (e : Bool) (rest : List AnalysisDict),
      gate_exit_code e (unmatched_result r.test_name r :: rest) =
        gate_exit_code e rest := by
  refine ⟨?_, rfl, rfl, rfl, by simp +decide [unmatched_result], ?_⟩
  · simp only [analyze_test_results, hobs, hmatch]
  · intro e rest
    unfold gate_exit_code
    cases e <;> simp +decide [List.countP_cons, unmatched_result]

theorem C1_witness :
    analyze_test_results rA no_match_table "linux" =
      some ([], unmatched_result rA.test_name rA) ∧
    (unmatched_result rA.test_name rA).status = "warning" ∧
    (unmatched_result rA.test_name rA).failures = none ∧
    (unmatched_result rA.test_name rA).warnings = none ∧
    (unmatched_result rA.test_name rA).status ≠ "passed" ∧
    ∀ (e : Bool) (rest : List AnalysisDict),
      gate_exit_code e (unmatched_result rA.test_name rA :: rest) =
        gate_exit_code e rest :=
  C1_unmatched_amended rA no_match_table "linux" [("zzz", bEmpty)]
    (by decide) (by decide)

/-- C8: when the baseline table's platform keys all lie in
`{linux, macos, windows}` and a `linux` set is present, any other platform
value falls back to the `linux` baseline set — the analysis result is the
one `linux` would give — and the fallback is observable: the warning line is
printed. -/
theorem C8_platform_fallback (r : Results) (table : BaselinesFile) (os_name : String)
    (hkeys : ∀ k ∈ table.baselines.map Prod.fst,
      k = "linux" ∨ k = "macos" ∨ k = "windows")
    (hlinux : (table.baselines.lookup "linux").isSome = true)
    (hos : os_name ≠ "linux" ∧ os_name ≠ "macos" ∧ os_name ≠ "windows") :
    ∃ d, analyze_test_results r table "linux" = some ([], d) ∧
      analyze_test_results r table os_name =
        some ([fallback_warning os_name], d) := by
  have hnone : table.baselines.lookup os_name = none := by
    by_contra hne
    have hs : (table.baselines.lookup os_name).isSome = true :=
      Option.ne_none_iff_isSome.mp hne
    rcases hkeys _ (mem_keys_of_lookup_isSome hs) with h | h | h
    exacts [hos.1 h, hos.2.1 h, hos.2.2 h]
  obtain ⟨obs, hobs⟩ := Option.isSome_iff_exists.mp hlinux
  simp only [analyze_test_results, hnone, hobs]
  cases hfind : find_baseline_key obs r.test_name with
  | none =>
    simp only [hfind]
    exact ⟨unmatched_result r.test_name r, rfl, rfl⟩
  | some k =>
    obtain ⟨b, hb⟩ := lookup_of_find_baseline_key hfind
    simp only [hfind, hb]
    exact ⟨evaluate_against_baseline r b r.test_name "linux", rfl, rfl⟩

theorem C8_witness :
    ∃ d, analyze_test_results rA no_match_table "linux" = some ([], d) ∧
      analyze_test_results rA no_match_table "freebsd" =
        some ([fallback_warning "freebsd"], d) :=
  C8_platform_fallback rA no_match_table "freebsd"
    (by decide) (by decide) (by decide)

/-- A baseline entry with a malformed (negative) memory bound. -/
def neg_bound_baseline : Baseline := ⟨none, some (-5), none, none, some 10⟩

/-- A baseline table carrying the malformed entry under key `"ipc"`. -/
def neg_bound_table : BaselinesFile := ⟨[("linux", [("ipc", neg_bound_baseline)])]⟩

/-- A record matching the `"ipc"` key, with peak memory 10 MB. -/
def rC9 : Results := ⟨"ipc_test", ⟨1000⟩, ⟨10⟩, ⟨1, 0⟩, ⟨0⟩⟩

/-- C9 counterexample: a baseline table with a negative bound is NOT rejected
at load time — no validation exists.  Analysis proceeds to completion on the
malformed table and the negative bound participates in the comparison,
yielding a `failed` verdict instead of a load-time error. -/
theorem C9_counterexample :
    (analyze_test_results rC9 neg_bound_table "linux").isSome = true ∧
    ((analyze_test_results rC9 neg_bound_table "linux").map fun p => p.2.status) =
      some "failed" := by
  have heval : analyze_test_results rC9 neg_bound_table "linux" =
      some ([], evaluate_against_baseline rC9 neg_bound_baseline "ipc_test" "linux") :=
    rfl
  have hstatus :
      (evaluate_against_baseline rC9 neg_bound_baseline "ipc_test" "linux").status =
        "failed" := by
    norm_num +decide [evaluate_against_baseline, throughput_check, memory_check,
      latency_check, violations_check, compare_metric, rC9, neg_bound_baseline]
  rw [heval]
  simp [hstatus]

/-- C9 amended: the loader applies no validation to the baseline table;
whenever the resolved platform key exists (for any bound values, negative
included), `analyze_test_results` runs to completion and returns a result —
malformed bounds are evaluated, not rejected before evaluation. -/
theorem C9_no_load_validation (r : Results) (table : BaselinesFile) (os_name : String)
    (h : (table.baselines.lookup os_name).isSome = true ∨
      (table.baselines.lookup "linux").isSome = true) :
    (analyze_test_results r table os_name).isSome = true := by
  unfold analyze_test_results
  cases hlook : table.baselines.lookup os_name with
  | some obs =>
    simp only [hlook]
    cases hfind : find_baseline_key obs r.test_name with
    | none => simp [hfind]
    | some k =>
      obtain ⟨b, hb⟩ := lookup_of_find_baseline_key hfind
      simp [hfind, hb]
  | none =>
    have hlinux : (table.baselines.lookup "linux").isSome = true := by
      rcases h with h | h
      · rw [hlook] at h; simp at h
      · exact h
    obtain ⟨obs, hobs⟩ := Option.isSome_iff_exists.mp hlinux
    simp only [hlook, hobs]
    cases hfind : find_baseline_key obs r.test_name with
    | none => simp [hfind]
    | some k =>
      obtain ⟨b, hb⟩ := lookup_of_find_baseline_key hfind
      simp [hfind, hb]

theorem C9_witness :
    (analyze_test_results rC9 neg_bound_table "linux").isSome = true :=
  C9_no_load_validation rC9 neg_bound_table "linux" (Or.inl (by decide))

theorem render_all_error (pre post : List AnalysisDict) (d : AnalysisDict)
    (h : d.test_name = none) :
    ∃ e, render_all (pre ++ d :: post) = Except.error e := by
  induction pre with
  | nil =>
    exact ⟨"KeyError: test_name",
      by simp only [List.nil_append, render_all, render_analysis, h]⟩
  | cons a pre2 ih =>
    obtain ⟨e, he⟩ := ih
    cases ha : render_analysis a with
    | error e2 =>
      exact ⟨e2, by simp only [List.cons_append, render_all, ha]⟩
    | ok s =>
      exact ⟨e, by simp only [List.cons_append, render_all, ha, List.append_eq, he]⟩

/-- C10: any batch containing a result from the no-baseline branch (whose
dict has no `test_name`/`metrics` keys) makes `generate_markdown_report`
raise a `KeyError` when it unconditionally indexes those keys, so no report
is produced for the entire batch. -/
theorem C10_report_keyerror (pre post : List AnalysisDict) (tn : String) (r : Results) :
    ∃ e, generate_markdown_report (pre ++ unmatched_result tn r :: post) =
      Except.error e := by
  obtain ⟨e, he⟩ := render_all_error pre post (unmatched_result tn r) rfl
  exact ⟨e, by simp only [generate_markdown_report, he]⟩

end CompareBenchmarks
